import Mathlib

/-!
Shallow embedding of `tools/test_opcodes.py`, the 6502 opcode regression
test orchestrator: it drives an external test binary over per-opcode
Harte test-vector files and classifies each case as passed / failed /
skipped / timed out.

The script's interaction with the outside world (file system, child
processes, network) is modelled by an `Env` of deterministic oracles:
`fileExists` answers `Path.exists()`, `run` gives the outcome of
`subprocess.run` on a vector file, and `download` gives the outcome of
`urlretrieve` on a URL.  Wall-clock durations (`time.time()` deltas) are
the `elapsed` data carried by each spawn outcome.  Nondeterministic
completion order of the thread pool in `_test_opcodes_parallel` is an
explicit `completion_order` parameter, constrained to be a permutation
of the submitted opcodes in the theorems.
-/

namespace TestOpcodes

/-- Outcome of one `subprocess.run([binary, test_file], ...)` call:
either the child exited (return code, captured stdout and stderr,
elapsed wall-clock time), or `subprocess.TimeoutExpired` was raised, or
some other exception was raised (e.g. the binary could not be spawned).
Each constructor carries the elapsed time `time.time() - start_time`
observed at the corresponding `except`/normal-path point. -/
inductive SpawnOutcome where
  | completed (returncode : Int) (stdout : String) (stderr : String) (elapsed : Nat)
  | timedOut (elapsed : Nat)
  | raised (message : String) (elapsed : Nat)
deriving DecidableEq

/-- Outcome of one `urlretrieve(url, test_file)` call: success, or an
exception carrying a message. -/
inductive FetchOutcome where
  | ok
  | err (message : String)
deriving DecidableEq

/-- The deterministic I/O environment the script runs against.
`fileExists p` models `Path(p).exists()`; `run p` models invoking the
subject binary on vector file `p`; `download u` models fetching URL
`u`.  Determinism (same path, same outcome) is the "deterministic
subject" assumption of the spec's equivalence property. -/
structure Env where
  fileExists : String → Bool
  run : String → SpawnOutcome
  download : String → FetchOutcome

/-- The `TestResult` dataclass, field for field (durations as naturals
rather than floats; the float arithmetic on durations is display-only). -/
structure TestResult where
  opcode : String
  passed : Bool
  skipped : Bool := false
  timeout : Bool := false
  exit_code : Int := 0
  output : String := ""
  duration : Nat := 0
  error_message : String := ""
deriving DecidableEq

/-- The spec's four-way verdict, derived from the dataclass flags the
way the script itself reads them (`skipped` checked first, then
`timeout`, then `passed`). -/
inductive Verdict where
  | Passed
  | Failed
  | Skipped
  | TimedOut
deriving DecidableEq

def TestResult.verdict (r : TestResult) : Verdict :=
  if r.skipped then .Skipped
  else if r.timeout then .TimedOut
  else if r.passed then .Passed
  else .Failed

/-- The runner's configuration fields that influence results
(`verbose`, `console` only affect logging and are omitted). -/
structure OpcodeTestRunner where
  binary_path : String
  test_data_dir : String
  timeout : Nat := 30

/-- Local vector path for an opcode: the test data directory, a slash,
the opcode, and the ".json" suffix. -/
def OpcodeTestRunner.test_file (self : OpcodeTestRunner) (opcode : String) : String :=
  self.test_data_dir ++ "/" ++ opcode ++ ".json"

/-- `OpcodeTestRunner.test_single_opcode`.  If the vector file is
missing, return a skipped result naming the path; otherwise run the
subject and classify: exit code 0 is a pass; a non-zero exit code is a
failure whose message records the exit code and, when stderr is
non-empty, its stripped content; `TimeoutExpired` is a timeout; any
other exception is a failure with an "Unexpected error" message. -/
def OpcodeTestRunner.test_single_opcode (self : OpcodeTestRunner) (env : Env)
    (opcode : String) : TestResult :=
  let test_file := self.test_file opcode
  if ¬ env.fileExists test_file then
    { opcode := opcode, passed := false, skipped := true,
      error_message := "Test file not found: " ++ test_file }
  else
    match env.run test_file with
    | .completed rc out err elapsed =>
      if rc = 0 then
        { opcode := opcode, passed := true, exit_code := rc, output := out,
          duration := elapsed }
      else
        let error_msg := "Exit code: " ++ toString rc
        let error_msg :=
          if err ≠ "" then error_msg ++ ", stderr: " ++ err.trim else error_msg
        { opcode := opcode, passed := false, exit_code := rc, output := out,
          duration := elapsed, error_message := error_msg }
    | .timedOut elapsed =>
      { opcode := opcode, passed := false, timeout := true, duration := elapsed,
        error_message := "Timeout after " ++ toString self.timeout ++ "s" }
    | .raised msg elapsed =>
      { opcode := opcode, passed := false, duration := elapsed,
        error_message := "Unexpected error: " ++ msg }

/-- The sequential loop of `OpcodeTestRunner.test_opcodes` (both the
rich-progress branch and the plain fallback branch append each result
and break when the result neither passed nor was skipped and
`continue_on_failure` is false). -/
def OpcodeTestRunner.test_opcodes_sequential (self : OpcodeTestRunner) (env : Env) :
    List String → Bool → List TestResult
  | [], _ => []
  | opcode :: rest, continue_on_failure =>
    let result := self.test_single_opcode env opcode
    if !result.passed && !result.skipped && !continue_on_failure then
      [result]
    else
      result :: self.test_opcodes_sequential env rest continue_on_failure

/-- Boolean string comparison used to model Python string ordering. -/
def strLe (a b : String) : Bool := decide (a ≤ b)

/-- The key function of `results.sort(key=lambda r: r.opcode)`. -/
def resultLe (a b : TestResult) : Bool := decide (a.opcode ≤ b.opcode)

/-- `OpcodeTestRunner._test_opcodes_parallel`.  All opcodes are
submitted to the pool; results are appended in the nondeterministic
order `as_completed` yields them (modelled by `completion_order`, a
permutation of the submitted opcodes); finally the collection is
sorted by opcode (`results.sort(key=lambda r: r.opcode)`, a stable
sort, modelled by `List.mergeSort`).  `max_workers` only bounds
concurrency and does not influence the result value. -/
def OpcodeTestRunner.test_opcodes_parallel (self : OpcodeTestRunner) (env : Env)
    (completion_order : List String) : List TestResult :=
  (completion_order.map (self.test_single_opcode env)).mergeSort resultLe

/-- `OpcodeTestRunner.test_opcodes`: dispatch to the parallel runner
when `parallel` is set and more than one opcode was given, otherwise
run sequentially. -/
def OpcodeTestRunner.test_opcodes (self : OpcodeTestRunner) (env : Env)
    (opcodes : List String) (continue_on_failure : Bool) (parallel : Bool)
    (completion_order : List String) : List TestResult :=
  if parallel ∧ opcodes.length > 1 then
    self.test_opcodes_parallel env completion_order
  else
    self.test_opcodes_sequential env opcodes continue_on_failure

/-- The aggregate counts and listings computed at the top of
`OpcodeTestRunner.print_summary` (lines building `passed`, `failed`,
`skipped`, `total`, `failed_opcodes`, `skipped_opcodes`,
`timeout_opcodes`). -/
structure Summary where
  passed : Nat
  failed : Nat
  skipped : Nat
  total : Nat
  failed_opcodes : List String
  skipped_opcodes : List String
  timeout_opcodes : List String
deriving DecidableEq

def summarize (results : List TestResult) : Summary :=
  { passed := results.countP fun r => r.passed
  , failed := results.countP fun r => !r.passed && !r.skipped
  , skipped := results.countP fun r => r.skipped
  , total := results.length
  , failed_opcodes := (results.filter fun r => !r.passed && !r.skipped).map fun r => r.opcode
  , skipped_opcodes := (results.filter fun r => r.skipped).map fun r => r.opcode
  , timeout_opcodes := (results.filter fun r => r.timeout).map fun r => r.opcode }

/-- A guarded percentage cell of the summary table: the source displays
count/total*100 rendered to one decimal place when total > 0, and the
literal string "0%" otherwise.  We model the displayed value as the
exact rational; the literal "0%" is the value 0. -/
def pctDisplayed (count total : Nat) : ℚ :=
  if total > 0 then (count : ℚ) * 100 / total else 0

/-- The Percentage column of the summary table, one value per row in
source order: the "Total Tests" row displays the constant `"100%"`
(modelled as 100), then the Passed, Failed and Skipped rows display
their guarded percentages. -/
def summary_percentage_column (results : List TestResult) : List ℚ :=
  let s := summarize results
  [100, pctDisplayed s.passed s.total, pctDisplayed s.failed s.total,
    pctDisplayed s.skipped s.total]

/-- The boolean returned by `OpcodeTestRunner.print_summary`: true iff
the failed count (non-passed, non-skipped results) is zero. -/
def print_summary (results : List TestResult) : Bool :=
  (summarize results).failed == 0

/-- The tail of `main`: exit status 0 when `print_summary` returned
True, 1 otherwise. -/
def main_exit_status (results : List TestResult) : Nat :=
  if print_summary results then 0 else 1

/-- Base URL of the Harte test vectors used by `download_test_data`. -/
def base_url : String := "https://github.com/TomHarte/ProcessorTests/raw/main/6502/v1"

/-- The `downloaded` / `failed` counters of
`OpcodeTestRunner.download_test_data`. -/
structure FetchSummary where
  downloaded : Nat
  failed : Nat
deriving DecidableEq

def FetchSummary.add (a b : FetchSummary) : FetchSummary :=
  ⟨a.downloaded + b.downloaded, a.failed + b.failed⟩

/-- The download loop of `OpcodeTestRunner.download_test_data` (the
rich-progress branch and the plain fallback branch count identically).
For each opcode in order: if its vector file already exists (either on
disk beforehand, `env.fileExists`, or written earlier in this same
loop, `created`), skip it without any network transfer; otherwise
attempt one transfer and count it as downloaded or failed.  A failed
transfer is caught (`except Exception`) and the loop continues. -/
def OpcodeTestRunner.download_loop (self : OpcodeTestRunner) (env : Env) :
    List String → List String → FetchSummary
  | _, [] => ⟨0, 0⟩
  | created, opcode :: rest =>
    let tf := self.test_file opcode
    if env.fileExists tf || created.contains tf then
      self.download_loop env created rest
    else
      match env.download (base_url ++ "/" ++ opcode ++ ".json") with
      | .ok => FetchSummary.add ⟨1, 0⟩ (self.download_loop env (tf :: created) rest)
      | .err _ => FetchSummary.add ⟨0, 1⟩ (self.download_loop env created rest)

/-- `OpcodeTestRunner.download_test_data` returns `failed == 0`. -/
def OpcodeTestRunner.download_test_data (self : OpcodeTestRunner) (env : Env)
    (opcodes : List String) : Bool :=
  (self.download_loop env [] opcodes).failed == 0

/-- The `IMPLEMENTED_OPCODES` registry (the default argument of
`download_test_data` and the default scope of a run). -/
def IMPLEMENTED_OPCODES : List String :=
["00", "08", "09", "0a", "0d", "10", "18", "19", "1d", "28", "29", "2a", "30", "38", "40", "48",
 "49", "4a", "4d", "50", "58", "59", "5d", "60", "68", "6a", "70", "78", "88", "8a", "8c", "8d",
 "8e", "90", "98", "99", "9a", "9d", "a0", "a2", "a8", "a9", "aa", "ac", "ad", "ae", "b0", "b8",
 "b9", "ba", "bc", "bd", "be", "c0", "c5", "c8", "c9", "ca", "cc", "cd", "d0", "d5", "d8", "d9",
 "dd", "e0", "e8", "ea", "ec", "f0", "f8", "e4", "c4", "45", "55", "a5", "b5", "a6", "b6", "a4",
 "b4", "85", "95", "86", "96", "84", "94", "15", "e6", "f6", "ee", "c6", "d6", "ce", "24", "2c",
 "06", "16", "0e", "46", "56", "4e", "26", "36", "2e", "66", "76", "6e", "25", "35", "2d", "20",
 "4c", "6c", "39", "3d", "1e", "3e", "5e", "7e", "fe", "de", "05", "21", "c1", "41",
 "a1", "81", "01", "11", "31", "51", "91", "b1", "d1",
 "69", "65", "75", "6d", "7d", "79", "61", "71",
 "e9", "e5", "f5", "ed", "fd", "f9", "e1", "f1"]


-- ===== concrete fixtures for the witnesses =====

def wRunner : OpcodeTestRunner :=
  { binary_path := "./build/clang/debug/harte/harte", test_data_dir := "data", timeout := 30 }

def wEnvFail : Env :=
  { fileExists := fun _ => true
  , run := fun p => if p = "data/01.json" then SpawnOutcome.completed 2 "" "" 5
      else SpawnOutcome.completed 0 "ok" "" 1
  , download := fun _ => FetchOutcome.ok }

def wEnvMissing : Env :=
  { fileExists := fun _ => false
  , run := fun _ => SpawnOutcome.completed 0 "" "" 0
  , download := fun _ => FetchOutcome.err "connection refused" }

def wEnvStore : Env :=
  { fileExists := fun _ => true
  , run := fun _ => SpawnOutcome.completed 0 "" "" 0
  , download := fun _ => FetchOutcome.ok }

def wResults : List TestResult :=
  [{ opcode := "10", passed := false, timeout := true, duration := 30,
     error_message := "Timeout after 30s" }]


-- ===== helper lemmas =====

theorem test_single_opcode_opcode (self : OpcodeTestRunner) (env : Env) (o : String) :
    (self.test_single_opcode env o).opcode = o := by
  unfold OpcodeTestRunner.test_single_opcode
  dsimp only
  split
  · rfl
  · split
    · split <;> rfl
    · rfl
    · rfl

theorem test_single_opcode_flags (self : OpcodeTestRunner) (env : Env) (o : String) :
    ((self.test_single_opcode env o).timeout = true →
      (self.test_single_opcode env o).passed = false) ∧
    ((self.test_single_opcode env o).skipped = true →
      (self.test_single_opcode env o).passed = false ∧
      (self.test_single_opcode env o).timeout = false ∧
      (self.test_single_opcode env o).duration = 0) := by
  unfold OpcodeTestRunner.test_single_opcode
  dsimp only
  split
  · simp
  · split
    · split <;> simp
    · simp
    · simp

theorem verdict_stop_iff (r : TestResult) (h : r.timeout = true → r.passed = false) :
    (r.verdict = Verdict.Failed ∨ r.verdict = Verdict.TimedOut) ↔
      (r.passed = false ∧ r.skipped = false) := by
  cases hp : r.passed <;> cases hs : r.skipped <;> cases ht : r.timeout <;>
    simp [TestResult.verdict, hp, hs, ht] at h ⊢

theorem verdict_go_iff (r : TestResult) (h : r.timeout = true → r.passed = false) :
    (r.verdict = Verdict.Passed ∨ r.verdict = Verdict.Skipped) ↔
      (r.passed = true ∨ r.skipped = true) := by
  cases hp : r.passed <;> cases hs : r.skipped <;> cases ht : r.timeout <;>
    simp [TestResult.verdict, hp, hs, ht] at h ⊢

theorem test_opcodes_sequential_all_continue (self : OpcodeTestRunner) (env : Env)
    (opcodes : List String) :
    self.test_opcodes_sequential env opcodes true =
      opcodes.map (self.test_single_opcode env) := by
  induction opcodes with
  | nil => rfl
  | cons o rest ih =>
    unfold OpcodeTestRunner.test_opcodes_sequential
    simp [ih]

theorem strLe_trans : ∀ a b c : String, strLe a b → strLe b c → strLe a c := by
  intro a b c hab hbc
  simp only [strLe, decide_eq_true_eq] at *
  exact le_trans hab hbc

theorem strLe_total : ∀ a b : String, strLe a b || strLe b a := by
  intro a b
  simp only [strLe, Bool.or_eq_true, decide_eq_true_eq]
  exact le_total a b

theorem resultLe_trans : ∀ a b c : TestResult, resultLe a b → resultLe b c → resultLe a c := by
  intro a b c hab hbc
  simp only [resultLe, decide_eq_true_eq] at *
  exact le_trans hab hbc

theorem resultLe_total : ∀ a b : TestResult, resultLe a b || resultLe b a := by
  intro a b
  simp only [resultLe, Bool.or_eq_true, decide_eq_true_eq]
  exact le_total a.opcode b.opcode

theorem mergeSort_strLe_eq_of_perm (l₁ l₂ : List String) (h : l₁.Perm l₂) :
    l₁.mergeSort strLe = l₂.mergeSort strLe := by
  have hs₁ : (l₁.mergeSort strLe).Sorted (fun a b : String => a ≤ b) := by
    apply List.Pairwise.imp _ (List.sorted_mergeSort strLe_trans strLe_total l₁)
    intro a b hab
    simpa [strLe] using hab
  have hs₂ : (l₂.mergeSort strLe).Sorted (fun a b : String => a ≤ b) := by
    apply List.Pairwise.imp _ (List.sorted_mergeSort strLe_trans strLe_total l₂)
    intro a b hab
    simpa [strLe] using hab
  exact List.eq_of_perm_of_sorted
    (((List.mergeSort_perm l₁ strLe).trans h).trans (List.mergeSort_perm l₂ strLe).symm)
    hs₁ hs₂

theorem map_mergeSort_opcode (self : OpcodeTestRunner) (env : Env) (l : List String) :
    (l.mergeSort strLe).map (self.test_single_opcode env) =
      (l.map (self.test_single_opcode env)).mergeSort resultLe := by
  apply List.map_mergeSort
  intro a _ b _
  simp [strLe, resultLe, test_single_opcode_opcode]

theorem test_opcodes_parallel_canonical (self : OpcodeTestRunner) (env : Env)
    (completion_order opcodes : List String) (h : completion_order.Perm opcodes) :
    self.test_opcodes_parallel env completion_order =
      (opcodes.mergeSort strLe).map (self.test_single_opcode env) := by
  unfold OpcodeTestRunner.test_opcodes_parallel
  rw [← map_mergeSort_opcode, mergeSort_strLe_eq_of_perm _ _ h]

/-- C9: every result produced by `test_single_opcode` satisfies the verdict
invariants: never passed and timed out, never passed and skipped, and a
skipped result has duration zero (no subject process ran). -/
theorem test_single_opcode_verdict_invariants (self : OpcodeTestRunner) (env : Env)
    (opcode : String) :
    ¬((self.test_single_opcode env opcode).passed = true ∧
        (self.test_single_opcode env opcode).timeout = true) ∧
    ¬((self.test_single_opcode env opcode).passed = true ∧
        (self.test_single_opcode env opcode).skipped = true) ∧
    ((self.test_single_opcode env opcode).skipped = true →
      (self.test_single_opcode env opcode).duration = 0) := by
  obtain ⟨ht, hs⟩ := test_single_opcode_flags self env opcode
  refine ⟨fun hc => ?_, fun hc => ?_, fun hc => (hs hc).2.2⟩
  · exact absurd (ht hc.2) (by simp [hc.1])
  · exact absurd (hs hc.2).1 (by simp [hc.1])

/-- C2: a missing vector file yields a Skipped result whose message names
the missing path, and no child process is spawned (the result does not
depend on the process oracle). -/
theorem test_single_opcode_missing_file_skips (self : OpcodeTestRunner) (env : Env)
    (opcode : String) (hf : env.fileExists (self.test_file opcode) = false) :
    (self.test_single_opcode env opcode).verdict = Verdict.Skipped ∧
    (self.test_single_opcode env opcode).error_message =
      "Test file not found: " ++ self.test_file opcode ∧
    ∀ env' : Env, env'.fileExists = env.fileExists →
      self.test_single_opcode env' opcode = self.test_single_opcode env opcode := by
  refine ⟨?_, ?_, ?_⟩
  · simp [OpcodeTestRunner.test_single_opcode, hf, TestResult.verdict]
  · simp [OpcodeTestRunner.test_single_opcode, hf]
  · intro env' henv
    simp [OpcodeTestRunner.test_single_opcode, hf, henv]

/-- C1: with the vector file present, the outcome is classified by exit
code: exit code 0 is Passed; any non-zero exit code is Failed with the exit
code recorded in the message together with the stripped stderr when stderr
is non-empty; an exception while spawning/running yields a Failed result
with a descriptive message (no exception escapes). -/
theorem test_single_opcode_classifies_by_exit_code (self : OpcodeTestRunner) (env : Env)
    (opcode : String) (hf : env.fileExists (self.test_file opcode) = true) :
    (∀ rc out err elapsed,
      env.run (self.test_file opcode) = SpawnOutcome.completed rc out err elapsed →
      ((self.test_single_opcode env opcode).verdict = Verdict.Passed ↔ rc = 0) ∧
      (rc ≠ 0 →
        (self.test_single_opcode env opcode).verdict = Verdict.Failed ∧
        (self.test_single_opcode env opcode).exit_code = rc ∧
        (self.test_single_opcode env opcode).error_message =
          (if err = "" then "Exit code: " ++ toString rc
           else "Exit code: " ++ toString rc ++ ", stderr: " ++ err.trim))) ∧
    (∀ msg elapsed, env.run (self.test_file opcode) = SpawnOutcome.raised msg elapsed →
      (self.test_single_opcode env opcode).verdict = Verdict.Failed ∧
      (self.test_single_opcode env opcode).error_message = "Unexpected error: " ++ msg) := by
  constructor
  · intro rc out err elapsed hrun
    by_cases hrc : rc = 0
    · subst hrc
      simp [OpcodeTestRunner.test_single_opcode, hf, hrun, TestResult.verdict]
    · constructor
      · simp [OpcodeTestRunner.test_single_opcode, hf, hrun, hrc, TestResult.verdict]
      · intro _
        by_cases herr : err = ""
        · simp [OpcodeTestRunner.test_single_opcode, hf, hrun, hrc, herr, TestResult.verdict]
        · simp [OpcodeTestRunner.test_single_opcode, hf, hrun, hrc, herr, TestResult.verdict]
  · intro msg elapsed hrun
    simp [OpcodeTestRunner.test_single_opcode, hf, hrun, TestResult.verdict]

/-- C3: in sequential mode with `continue_on_failure = false`, the run
stops immediately after the first Failed or TimedOut result (Passed and
Skipped results never trigger the stop), returning exactly the results
gathered so far; the identifiers after the failing one are never
executed (the returned collection does not involve them). -/
theorem test_opcodes_sequential_early_stop (self : OpcodeTestRunner) (env : Env)
    (pre : List String) (o : String) (rest : List String)
    (hpre : ∀ p ∈ pre,
      (self.test_single_opcode env p).verdict = Verdict.Passed ∨
      (self.test_single_opcode env p).verdict = Verdict.Skipped)
    (ho : (self.test_single_opcode env o).verdict = Verdict.Failed ∨
      (self.test_single_opcode env o).verdict = Verdict.TimedOut) :
    self.test_opcodes_sequential env (pre ++ o :: rest) false =
      pre.map (self.test_single_opcode env) ++ [self.test_single_opcode env o] := by
  induction pre with
  | nil =>
    obtain ⟨hps, hsk⟩ :=
      (verdict_stop_iff _ (test_single_opcode_flags self env o).1).mp ho
    unfold OpcodeTestRunner.test_opcodes_sequential
    simp [hps, hsk]
  | cons p ps ih =>
    have hp := hpre p (by simp)
    have hgo := (verdict_go_iff _ (test_single_opcode_flags self env p).1).mp hp
    unfold OpcodeTestRunner.test_opcodes_sequential
    have hcond : (!(self.test_single_opcode env p).passed &&
        !(self.test_single_opcode env p).skipped && !false) = false := by
      rcases hgo with h | h <;> simp [h]
    simp only [List.cons_append, hcond, Bool.false_eq_true, if_false]
    rw [ih (fun q hq => hpre q (by simp [hq]))]
    simp

/-- C10: with one or zero identifiers, `test_opcodes` takes the
sequential path even when `parallel` is requested. -/
theorem test_opcodes_small_set_is_sequential (self : OpcodeTestRunner) (env : Env)
    (opcodes : List String) (continue_on_failure : Bool)
    (completion_order : List String) (hlen : opcodes.length ≤ 1) :
    self.test_opcodes env opcodes continue_on_failure true completion_order =
      self.test_opcodes_sequential env opcodes continue_on_failure := by
  unfold OpcodeTestRunner.test_opcodes
  rw [if_neg]
  intro hc
  omega

/-- C4: in parallel mode (parallel requested and more than one opcode),
`continue_on_failure` is ignored, exactly one result is produced per
submitted identifier, the returned collection is sorted by opcode, and
the result is independent of the nondeterministic completion order. -/
theorem test_opcodes_parallel_complete_sorted (self : OpcodeTestRunner) (env : Env)
    (opcodes completion_order completion_order' : List String)
    (cof cof' : Bool)
    (h : completion_order.Perm opcodes) (h' : completion_order'.Perm opcodes)
    (hlen : 1 < opcodes.length) :
    self.test_opcodes env opcodes cof true completion_order =
      self.test_opcodes env opcodes cof' true completion_order ∧
    ((self.test_opcodes env opcodes cof true completion_order).map
        (fun r => r.opcode)).Perm opcodes ∧
    ((self.test_opcodes env opcodes cof true completion_order).Sorted
        fun a b => a.opcode ≤ b.opcode) ∧
    self.test_opcodes env opcodes cof true completion_order =
      self.test_opcodes env opcodes cof true completion_order' := by
  have hcond : ((true : Bool) ∧ opcodes.length > 1) := ⟨rfl, hlen⟩
  have hred : ∀ (c : Bool) (ord : List String),
      self.test_opcodes env opcodes c true ord = self.test_opcodes_parallel env ord := by
    intro c ord
    unfold OpcodeTestRunner.test_opcodes
    rw [if_pos hcond]
  refine ⟨by rw [hred, hred], ?_, ?_, ?_⟩
  · rw [hred]
    unfold OpcodeTestRunner.test_opcodes_parallel
    have hperm := (List.mergeSort_perm
      (completion_order.map (self.test_single_opcode env)) resultLe).map
      (fun r : TestResult => r.opcode)
    refine hperm.trans ?_
    rw [List.map_map]
    have : completion_order.map
        ((fun r : TestResult => r.opcode) ∘ self.test_single_opcode env) =
        completion_order := by
      trans completion_order.map id
      · exact List.map_congr_left fun o _ => test_single_opcode_opcode self env o
      · exact List.map_id _
    rw [this]
    exact h
  · rw [hred]
    unfold OpcodeTestRunner.test_opcodes_parallel
    apply List.Pairwise.imp _
      (List.sorted_mergeSort resultLe_trans resultLe_total
        (completion_order.map (self.test_single_opcode env)))
    intro a b hab
    simpa [resultLe] using hab
  · rw [hred, hred, test_opcodes_parallel_canonical self env completion_order opcodes h,
      test_opcodes_parallel_canonical self env completion_order' opcodes h']

theorem mergeSort_parallel_eq_sequential (self : OpcodeTestRunner) (env : Env)
    (opcodes completion_order : List String) (h : completion_order.Perm opcodes) :
    (self.test_opcodes_parallel env completion_order).mergeSort resultLe =
      (self.test_opcodes_sequential env opcodes true).mergeSort resultLe := by
  rw [test_opcodes_parallel_canonical self env completion_order opcodes h,
    test_opcodes_sequential_all_continue, ← map_mergeSort_opcode, ← map_mergeSort_opcode,
    List.mergeSort_of_sorted (List.sorted_mergeSort strLe_trans strLe_total opcodes)]

/-- C5: over the same identifier set and the same deterministic subject,
`test_opcodes` in parallel mode and in sequential mode with
continue-on-failure produces identical per-identifier results: after
sorting both collections by opcode they are element-wise equal. -/
theorem parallel_sequential_equivalence (self : OpcodeTestRunner) (env : Env)
    (opcodes completion_order : List String) (h : completion_order.Perm opcodes) :
    (self.test_opcodes env opcodes true true completion_order).mergeSort resultLe =
      (self.test_opcodes env opcodes true false completion_order).mergeSort resultLe := by
  unfold OpcodeTestRunner.test_opcodes
  by_cases hlen : opcodes.length > 1
  · rw [if_pos ⟨rfl, hlen⟩, if_neg (by simp)]
    exact mergeSort_parallel_eq_sequential self env opcodes completion_order h
  · rw [if_neg (fun hc => hlen hc.2), if_neg (by simp)]

theorem summarize_failed_eq_verdict_counts (results : List TestResult)
    (hinv : ∀ r ∈ results, r.timeout = true → r.passed = false) :
    (summarize results).failed =
      results.countP (fun r => r.verdict == Verdict.Failed) +
        results.countP (fun r => r.verdict == Verdict.TimedOut) := by
  induction results with
  | nil => simp [summarize]
  | cons r rest ih =>
    have hr := hinv r (by simp)
    have hrest := ih fun x hx => hinv x (by simp [hx])
    simp only [summarize, List.countP_cons] at hrest ⊢
    cases hp : r.passed <;> cases hs : r.skipped <;> cases ht : r.timeout <;>
      simp [TestResult.verdict, hp, hs, ht, hrest] <;>
      first
        | omega
        | (exact absurd (hr ht) (by simp [hp]))

/-- C6: the boolean returned by `print_summary` (and reflected by `main`
as exit status 0 for success, 1 otherwise) is true iff zero results have
verdict Failed or TimedOut — timed-out results count within the failed
count and skipped results do not affect the boolean. -/
theorem print_summary_success_iff (results : List TestResult)
    (hinv : ∀ r ∈ results, r.timeout = true → r.passed = false) :
    (print_summary results = true ↔
      results.countP (fun r => r.verdict == Verdict.Failed) +
        results.countP (fun r => r.verdict == Verdict.TimedOut) = 0) ∧
    (∀ s : TestResult, s.verdict = Verdict.Skipped →
      print_summary (s :: results) = print_summary results) ∧
    (main_exit_status results = 0 ↔ print_summary results = true) ∧
    (main_exit_status results = 1 ↔ print_summary results = false) := by
  refine ⟨?_, ?_, ?_, ?_⟩
  · rw [print_summary, beq_iff_eq, summarize_failed_eq_verdict_counts results hinv]
  · intro s hs
    have hskip : s.skipped = true := by
      cases hsk : s.skipped with
      | true => rfl
      | false =>
        exfalso
        cases ht : s.timeout <;> cases hp : s.passed <;>
          simp [TestResult.verdict, hsk, ht, hp] at hs
    simp [print_summary, summarize, List.countP_cons, hskip]
  · cases hps : print_summary results <;> simp [main_exit_status, hps]
  · cases hps : print_summary results <;> simp [main_exit_status, hps]

/-- C7 counterexample: on the empty collection the summary's Percentage
column does not display 0% everywhere — its "Total Tests" row displays
the constant 100%. -/
theorem summary_percentage_column_empty_not_all_zero :
    ¬ (∀ q ∈ summary_percentage_column [], q = 0) := by
  intro hall
  have h100 : (100 : ℚ) ∈ summary_percentage_column [] := by
    simp [summary_percentage_column]
  have := hall 100 h100
  norm_num at this

/-- C7 amended: `summarize` of the empty collection returns all-zero
counts, and each guarded per-verdict percentage (Passed, Failed,
Skipped) displays 0% without dividing by zero; the Total row's
percentage cell is the constant 100%. -/
theorem summarize_empty_all_zero :
    summarize [] = ⟨0, 0, 0, 0, [], [], []⟩ ∧
    summary_percentage_column [] = [100, 0, 0, 0] ∧
    pctDisplayed (summarize []).passed (summarize []).total = 0 ∧
    pctDisplayed (summarize []).failed (summarize []).total = 0 ∧
    pctDisplayed (summarize []).skipped (summarize []).total = 0 := by
  refine ⟨rfl, ?_, ?_, ?_, ?_⟩ <;> simp [summary_percentage_column, summarize, pctDisplayed]

theorem download_loop_cons (self : OpcodeTestRunner) (env : Env) (created : List String)
    (opcode : String) (rest : List String) :
    self.download_loop env created (opcode :: rest) =
      (let tf := self.test_file opcode
       if env.fileExists tf || created.contains tf then
         self.download_loop env created rest
       else
         match env.download (base_url ++ "/" ++ opcode ++ ".json") with
         | .ok => FetchSummary.add ⟨1, 0⟩ (self.download_loop env (tf :: created) rest)
         | .err _ => FetchSummary.add ⟨0, 1⟩ (self.download_loop env created rest)) := rfl

theorem download_loop_all_present (self : OpcodeTestRunner) (env : Env)
    (opcodes : List String) (created : List String)
    (hall : ∀ o ∈ opcodes, env.fileExists (self.test_file o) = true) :
    self.download_loop env created opcodes = ⟨0, 0⟩ := by
  induction opcodes generalizing created with
  | nil => rfl
  | cons o rest ih =>
    unfold OpcodeTestRunner.download_loop
    dsimp only
    rw [hall o (by simp)]
    simpa using ih created (fun q hq => hall q (by simp [hq]))

/-- C8: the downloader is idempotent and best-effort per identifier:
over a fully-populated store it performs zero network transfers (zero
downloaded and zero failed, whatever the network oracle does) and
returns true; a failed transfer contributes exactly one failure and
leaves the processing of the remaining identifiers unchanged; and the
returned boolean is true iff the failure count is zero (partial failure
is reported, never raised). -/
theorem download_test_data_best_effort (self : OpcodeTestRunner) (env : Env) :
    (∀ opcodes : List String,
      (∀ o ∈ opcodes, env.fileExists (self.test_file o) = true) →
      (∀ env' : Env, env'.fileExists = env.fileExists →
        self.download_loop env' [] opcodes = ⟨0, 0⟩) ∧
      self.download_test_data env opcodes = true) ∧
    (∀ (created : List String) (opcode : String) (rest : List String) (msg : String),
      env.fileExists (self.test_file opcode) = false →
      created.contains (self.test_file opcode) = false →
      env.download (base_url ++ "/" ++ opcode ++ ".json") = FetchOutcome.err msg →
      self.download_loop env created (opcode :: rest) =
        FetchSummary.add ⟨0, 1⟩ (self.download_loop env created rest)) ∧
    (∀ opcodes : List String,
      self.download_test_data env opcodes = true ↔
        (self.download_loop env [] opcodes).failed = 0) := by
  refine ⟨?_, ?_, ?_⟩
  · intro opcodes hall
    constructor
    · intro env' henv
      exact download_loop_all_present self env' opcodes []
        (fun o ho => by rw [henv]; exact hall o ho)
    · rw [OpcodeTestRunner.download_test_data,
        download_loop_all_present self env opcodes [] hall]
      rfl
  · intro created opcode rest msg hf hc hd
    rw [download_loop_cons]
    dsimp only
    rw [hf, hc]
    simp [hd]
  · intro opcodes
    simp [OpcodeTestRunner.download_test_data]


theorem test_single_opcode_classifies_witness :
    (wRunner.test_single_opcode wEnvFail "01").verdict = Verdict.Failed ∧
    (wRunner.test_single_opcode wEnvFail "01").exit_code = 2 ∧
    (wRunner.test_single_opcode wEnvFail "01").error_message = "Exit code: 2" := by
  have h := ((test_single_opcode_classifies_by_exit_code wRunner wEnvFail "01" rfl).1
    2 "" "" 5 (by decide)).2 (by decide)
  refine ⟨h.1, h.2.1, ?_⟩
  rw [h.2.2]
  decide

theorem missing_file_skips_witness :
    (wRunner.test_single_opcode wEnvMissing "a9").verdict = Verdict.Skipped ∧
    (wRunner.test_single_opcode wEnvMissing "a9").error_message =
      "Test file not found: data/a9.json" := by
  have h := test_single_opcode_missing_file_skips wRunner wEnvMissing "a9" rfl
  exact ⟨h.1, by rw [h.2.1]; decide⟩

theorem sequential_early_stop_witness :
    wRunner.test_opcodes_sequential wEnvFail ["01", "02", "03"] false =
      [wRunner.test_single_opcode wEnvFail "01"] := by
  have h := test_opcodes_sequential_early_stop wRunner wEnvFail [] "01" ["02", "03"]
    (by simp) (Or.inl (by decide))
  simpa using h

theorem parallel_complete_sorted_witness :
    ((wRunner.test_opcodes wEnvFail ["01", "02"] false true ["02", "01"]).map
      (fun r => r.opcode)).Perm ["01", "02"] :=
  (test_opcodes_parallel_complete_sorted wRunner wEnvFail ["01", "02"] ["02", "01"]
    ["01", "02"] false true (by decide) (by decide) (by decide)).2.1

theorem parallel_sequential_equivalence_witness :
    (wRunner.test_opcodes wEnvFail ["01", "02"] true true ["02", "01"]).mergeSort resultLe =
      (wRunner.test_opcodes wEnvFail ["01", "02"] true false ["02", "01"]).mergeSort resultLe :=
  parallel_sequential_equivalence wRunner wEnvFail ["01", "02"] ["02", "01"] (by decide)

theorem print_summary_success_iff_witness :
    print_summary wResults = true ↔
      wResults.countP (fun r => r.verdict == Verdict.Failed) +
        wResults.countP (fun r => r.verdict == Verdict.TimedOut) = 0 :=
  (print_summary_success_iff wResults (by decide)).1

theorem download_test_data_best_effort_witness :
    wRunner.download_test_data wEnvStore ["a9", "00"] = true :=
  ((download_test_data_best_effort wRunner wEnvStore).1 ["a9", "00"]
    (fun _ _ => rfl)).2

theorem small_set_sequential_witness :
    wRunner.test_opcodes wEnvFail ["a9"] false true [] =
      wRunner.test_opcodes_sequential wEnvFail ["a9"] false :=
  test_opcodes_small_set_is_sequential wRunner wEnvFail ["a9"] false [] (by decide)

end TestOpcodes
